import Mathlib

/-!
Verification of the Redmine Home Assistant integration
(`custom_components/redmine`): a shallow embedding of the HTTP client
(`api.py`), the two-step setup flow (`config_flow.py`), and the service
invocation path (`__init__.py`), together with theorems settling the
specification's claims.

Modelling conventions:
* Python strings are `String`, except URLs, which are `List Char` so that
  character-level normalization (`str.rstrip("/")`, `str.startswith`) can be
  reasoned about directly.
* A decoded JSON document is the inductive `JValue`; a `dict` is an
  association list in insertion order.
* One outbound HTTP request is summarized by its observable outcome
  `HttpOutcome`: either the server replied (status plus decoded body), or the
  transport raised an exception, classified by the `aiohttp` exception class
  the source's `except` clauses dispatch on.
* Python exceptions raised by the client are the values of `RaisedError`;
  a fallible call is `Except RaisedError α`.  `RaisedError.uncaught` stands
  for an exception outside the Redmine taxonomy propagating out of a function
  that has no handler for it.
-/

/-- A decoded JSON value (the result of `await response.json()`). -/
inductive JValue where
  | null
  | bool (b : Bool)
  | num (n : Int)
  | str (s : String)
  | arr (xs : List JValue)
  | obj (fields : List (String × JValue))

/-- `dict.__getitem__` / `dict.get` on a decoded JSON object: first binding
of the key (decoded JSON objects bind each key once). -/
def jlookup (fields : List (String × JValue)) (k : String) : Option JValue :=
  (fields.find? (fun f => f.1 == k)).map (fun f => f.2)

/-- `d.get(k)` where `d` is a decoded JSON value: `none` when the key is
absent; lookups on a non-object have no result. -/
def jsonGet : JValue → String → Option JValue
  | .obj fs, k => jlookup fs k
  | _, _ => none

/-- The exception classes of `api.py` (`RedmineApiError` and its two
subclasses), plus `uncaught` for any exception outside that taxonomy that a
function lets propagate.  The carried string is the exception's message. -/
inductive RaisedError where
  | apiError (msg : String)
  | authError (msg : String)
  | connectionError (msg : String)
  | uncaught (msg : String)

/-- Observable outcome of one `aiohttp` request, as dispatched on by the
source's `except` clauses.  `response` means the server replied and the body
decoded as JSON. -/
inductive HttpOutcome where
  | response (status : Nat) (body : JValue)
  | sslError (msg : String)
  | clientError (msg : String)
  | otherError (msg : String)

/-- Whether the debug-log argument `data.get("user", {}).get("login")`
(`api.py` line 78) evaluates without raising: `data` must be a dict, and
its `"user"` value, when present, must itself be a dict (`.get` on a
non-dict raises `AttributeError`; an absent key falls back to `{}`). -/
def user_login_evaluates : JValue → Bool
  | .obj fs =>
    match jlookup fs "user" with
    | none => true
    | some (.obj _) => true
    | some _ => false
  | _ => false

/-- `RedmineClient.validate_connection` (`api.py` lines 53-95).
Dispatch, following the source: a 401 status raises `RedmineAuthError`
before `raise_for_status`; `raise_for_status` raises `ClientResponseError`
exactly for statuses `≥ 400`, which the `except ClientResponseError` clause
reclassifies (its own 401 re-check is unreachable, the direct check fired
first); a remaining response then evaluates
`data.get("user", {}).get("login")` for the debug log inside the `try` —
an `AttributeError` from a non-dict body shape lands in `except Exception`
— and returns `True`.  `ClientSSLError`, other `ClientError`s, and the
final `except Exception` all map to `RedmineConnectionError`. -/
def validate_connection : HttpOutcome → Except RaisedError Bool
  | .response status body =>
    if status = 401 then .error (.authError "Invalid API key")
    else if 400 ≤ status then
      .error (.connectionError ("HTTP error " ++ toString status))
    else if user_login_evaluates body then .ok true
    else .error (.connectionError "Unexpected error: AttributeError")
  | .sslError m => .error (.connectionError ("SSL error: " ++ m))
  | .clientError m => .error (.connectionError ("Connection failed: " ++ m))
  | .otherError m => .error (.connectionError ("Unexpected error: " ++ m))

/-- Python truthiness of `int | None`, as used by `priority_id or 2`
(`api.py` line 125): `None` and `0` are falsy, every other int truthy. -/
def pyOrInt (v : Option Int) (dflt : Int) : Int :=
  match v with
  | some n => if n = 0 then dflt else n
  | none => dflt

/-- The request body `create_issue` builds (`api.py` lines 120-130):
`{"issue": {project_id, subject, tracker_id, priority_id, description?}}`,
with `priority_id or 2` applied and `description` appended only when truthy
(not `None` and non-empty). -/
def create_issue_payload (project_id : String) (subject : String)
    (tracker_id : Int) (description : Option String)
    (priority_id : Option Int) : JValue :=
  .obj [("issue", .obj
    ([("project_id", .str project_id),
      ("subject", .str subject),
      ("tracker_id", .num tracker_id),
      ("priority_id", .num (pyOrInt priority_id 2))] ++
     (match description with
      | some d => if d = "" then [] else [("description", .str d)]
      | none => [])))]

/-- Field lookup inside the payload's nested `issue` object. -/
def issueField (body : JValue) (key : String) : Option JValue :=
  (jsonGet body "issue").bind (fun inner => jsonGet inner key)

/-- `", ".join(x)` over a decoded JSON value, per Python iteration semantics:
a list joins its elements when all are strings (otherwise `TypeError`), a
string joins its one-character substrings, a dict joins its keys; `null`,
numbers and booleans are not iterable (`TypeError`).  `none` models the
`TypeError` case. -/
def joinStrings : JValue → Option (List String)
  | .arr xs => xs.foldr (fun x acc =>
      match x, acc with
      | .str s, some rest => some (s :: rest)
      | _, _ => none) (some [])
  | .str s => some (s.data.map (fun c => String.mk [c]))
  | .obj fs => some (fs.map (fun f => f.1))
  | _ => none

/-- `error_data.get("errors", ["Unknown validation error"])` followed by the
join (`api.py` lines 143-145).  `none` models a `TypeError`/`AttributeError`
escaping: the 422 body was not a dict, or its `errors` value was not a
sequence of strings. -/
def errorsOf : JValue → Option (List String)
  | .obj fs =>
    match jlookup fs "errors" with
    | none => some ["Unknown validation error"]
    | some v => joinStrings v
  | _ => none

/-- `RedmineClient.create_issue` (`api.py` lines 132-153), response
handling.  Dispatch, following the source: 401 raises `RedmineAuthError`;
422 decodes the body and raises `RedmineApiError` with the comma-joined
server errors; `raise_for_status` raises for statuses `≥ 400`, caught by
`except ClientResponseError` and reclassified as `RedmineApiError` carrying
the status; every remaining response returns the decoded body.
`ClientSSLError` is a subclass of `ClientError`, so both transport failures
hit `except ClientError` and become `RedmineConnectionError`.  There is no
`except Exception` here: any other exception propagates (`uncaught`). -/
def create_issue : HttpOutcome → Except RaisedError JValue
  | .response status body =>
    if status = 401 then .error (.authError "Invalid API key")
    else if status = 422 then
      match errorsOf body with
      | some errs =>
        .error (.apiError ("Validation error: " ++ String.intercalate ", " errs))
      | none => .error (.uncaught "TypeError")
    else if 400 ≤ status then
      .error (.apiError ("Failed to create issue: " ++ toString status))
    else .ok body
  | .sslError m => .error (.connectionError ("Connection failed: " ++ m))
  | .clientError m => .error (.connectionError ("Connection failed: " ++ m))
  | .otherError m => .error (.uncaught m)

example : validate_connection (.response 200 (.obj [])) = .ok true := rfl
example : validate_connection (.response 304 (.obj [])) = .ok true := rfl
example : create_issue (.response 422
    (.obj [("errors", .arr [.str "a", .str "b"])])) =
    .error (.apiError "Validation error: a, b") := rfl

/-! ## URL normalization (`config_flow.py` lines 57-61, `api.py` line 42) -/

/-- Python `s.rstrip("/")`: remove every trailing `'/'`. -/
def rstripSlashes (l : List Char) : List Char :=
  (l.reverse.dropWhile (fun c => c = '/')).reverse

/-- `redmine_url.startswith(("http://", "https://"))`
(`config_flow.py` line 60). -/
def hasScheme (l : List Char) : Bool :=
  "http://".toList.isPrefixOf l || "https://".toList.isPrefixOf l

/-- The normalization `async_step_user` applies to the entered URL
(`config_flow.py` lines 57-61): strip trailing slashes, then prepend
`http://` unless the stripped string starts with a scheme. -/
def normalizeRedmineUrl (l : List Char) : List Char :=
  let t := rstripSlashes l
  if hasScheme t then t else "http://".toList ++ t

/-- `RedmineClient._base_url` for a raw entered URL: the flow-normalized URL
passes through `RedmineClient.__init__`, which applies `rstrip("/")` once
more (`api.py` line 42). -/
def clientBaseUrl (l : List Char) : List Char :=
  rstripSlashes (normalizeRedmineUrl l)

/-- The path appended to the base URL by `validate_connection`
(`api.py` line 63). -/
def usersCurrentPath : List Char := "/users/current.json".toList

/-- The path appended to the base URL by `create_issue`
(`api.py` line 134). -/
def issuesPath : List Char := "/issues.json".toList

/-- A request path begins with exactly one slash: a leading `'/'` not
followed by a second one. -/
def oneLeadingSlash (p : List Char) : Prop :=
  p.head? = some '/' ∧ p.tail.head? ≠ some '/'

/-! ## Reference-data fetching and the setup flow (`config_flow.py`) -/

/-- A project entry as consumed by the flow (`p["identifier"]`,
`p["name"]`). -/
structure ProjectItem where
  identifier : String
  name : String
deriving DecidableEq

/-- A tracker entry as consumed by the flow (`t["id"]`, `t["name"]`). -/
structure TrackerItem where
  id : Int
  name : String
deriving DecidableEq

/-- A priority entry as consumed by the flow (`p["id"]`, `p["name"]`,
`p.get("is_default")` — absent flag modelled as `false`). -/
structure PriorityItem where
  id : Int
  name : String
  is_default : Bool
deriving DecidableEq

/-- Outcome of one reference-data GET: the server's decoded item sequence,
in the order the server sent it, or a connection-level failure. -/
inductive ListOutcome (α : Type) where
  | items (xs : List α)
  | connFail (msg : String)

/-- Modelled from the spec: `RedmineClient.get_projects` is invoked by
`config_flow.async_step_user` (line 91) but its definition is absent from
the provided `api.py`; per spec §4.1 the list operations perform an
authenticated GET and "return items in server-provided order (no
client-side sorting)" or fail with ConnectionError. -/
def get_projects : ListOutcome ProjectItem → Except RaisedError (List ProjectItem)
  | .items xs => .ok xs
  | .connFail m => .error (.connectionError m)

/-- Modelled from the spec: `RedmineClient.get_priorities` is invoked by
`config_flow.async_step_user` (line 92) but absent from the provided
`api.py`; same contract as `get_projects`. -/
def get_priorities : ListOutcome PriorityItem → Except RaisedError (List PriorityItem)
  | .items xs => .ok xs
  | .connFail m => .error (.connectionError m)

/-- Modelled from the spec: `RedmineClient.get_trackers` is invoked by
`config_flow.async_step_user` (line 93) but absent from the provided
`api.py`; same contract as `get_projects`. -/
def get_trackers : ListOutcome TrackerItem → Except RaisedError (List TrackerItem)
  | .items xs => .ok xs
  | .connFail m => .error (.connectionError m)

/-- Result of the submitted first setup step: re-show the form with
field-level errors, proceed to the options step carrying the fetched
reference lists, or (unreachable for the modelled operations) let a foreign
exception propagate. -/
inductive StepUserResult where
  | showForm (errors : List (String × String))
  | proceedOptions (projects : List ProjectItem) (priorities : List PriorityItem)
      (trackers : List TrackerItem)
  | escaped (e : RaisedError)

/-- `async_step_user` with input submitted (`config_flow.py` lines 57-99):
validate the connection (AuthError → field error on the API key,
ConnectionError → field error on the URL, anything else → generic error);
on success fetch projects, priorities and trackers in that order, where
only `RedmineConnectionError` is caught (→ "cannot_fetch_options"); on
success proceed to the options step with the fetched lists. -/
def async_step_user (v : HttpOutcome) (po : ListOutcome ProjectItem)
    (ro : ListOutcome PriorityItem) (ko : ListOutcome TrackerItem) :
    StepUserResult :=
  match validate_connection v with
  | .error (.authError _) => .showForm [("api_key", "invalid_auth")]
  | .error (.connectionError _) => .showForm [("redmine_url", "cannot_connect")]
  | .error e =>
    match e with
    | .apiError _ => .showForm [("base", "unknown")]
    | .uncaught _ => .showForm [("base", "unknown")]
    | _ => .showForm [("base", "unknown")]
  | .ok _ =>
    match get_projects po with
    | .error (.connectionError _) => .showForm [("base", "cannot_fetch_options")]
    | .error e => .escaped e
    | .ok ps =>
      match get_priorities ro with
      | .error (.connectionError _) => .showForm [("base", "cannot_fetch_options")]
      | .error e => .escaped e
      | .ok rs =>
        match get_trackers ko with
        | .error (.connectionError _) => .showForm [("base", "cannot_fetch_options")]
        | .error e => .escaped e
        | .ok ts => .proceedOptions ps rs ts

/-! ## Options-step default selections (`config_flow.py` lines 127-172) -/

/-- The tracker dropdown's pre-selection
(`str(self._trackers[0]["id"]) if self._trackers else "1"`, line 155). -/
def default_tracker_choice (ts : List TrackerItem) : String :=
  match ts with
  | [] => "1"
  | t :: _ => toString t.id

/-- The priority dropdown's pre-selection (lines 139-142): first priority
whose `is_default` flag is truthy, else the first priority, else `"2"`. -/
def default_priority_choice (ps : List PriorityItem) : String :=
  match ps.find? (fun p => p.is_default) with
  | some p => toString p.id
  | none =>
    match ps with
    | [] => "2"
    | p :: _ => toString p.id

/-- The three dropdowns' pre-selections in the options schema: the project
field is `vol.Required` with no default (line 147), the other two carry the
computed defaults. -/
structure OptionsDefaults where
  project : Option String
  tracker : Option String
  priority : Option String
deriving DecidableEq

/-- Pre-selections of the options form built by `async_step_options`
(lines 145-172). -/
def options_schema_defaults (ts : List TrackerItem) (ps : List PriorityItem) :
    OptionsDefaults :=
  { project := none
    tracker := some (default_tracker_choice ts)
    priority := some (default_priority_choice ps) }

/-! ## Entry creation and duplicate detection (`config_flow.py` lines 111-125) -/

/-- The persisted configuration record (`data=` of `async_create_entry`,
lines 118-124; the persisted-record shape of spec §6). -/
structure InstallationConfig where
  redmine_url : List Char
  api_key : String
  default_project_id : String
  default_tracker_id : Int
  default_priority_id : Int
deriving DecidableEq

/-- One submitted options step against the registry of already-persisted
entries: `async_set_unique_id(self._redmine_url)` keys the entry by the
flow-normalized URL, `_abort_if_unique_id_configured()` aborts when an
entry with that unique id already exists, and only otherwise is the entry
persisted.  Returns the new registry and whether the run aborted. -/
def setupRun (entries : List InstallationConfig) (rawUrl : List Char)
    (key project : String) (tracker priority : Int) :
    List InstallationConfig × Bool :=
  let url := normalizeRedmineUrl rawUrl
  if entries.any (fun e => decide (e.redmine_url = url)) then
    (entries, true)
  else
    ({ redmine_url := url, api_key := key, default_project_id := project,
       default_tracker_id := tracker, default_priority_id := priority } ::
      entries, false)

/-! ## Service invocation path (`__init__.py` lines 62-96, `const.py`) -/

/-- `const.py` line 24. -/
def DEFAULT_TRACKER_ID : Int := 1

/-- `const.py` line 25. -/
def DEFAULT_PRIORITY_ID : Int := 2

/-- Validated `create_issue` service-call data (`SERVICE_CREATE_ISSUE_SCHEMA`,
`__init__.py` lines 33-41): `subject` required, the rest optional. -/
structure ServiceCallData where
  subject : String
  project_id : Option String
  description : Option String
  tracker_id : Option Int
  priority_id : Option Int

/-- The argument tuple `async_create_issue` passes to
`client.create_issue`. -/
structure ResolvedIssueParams where
  project_id : String
  subject : String
  tracker_id : Int
  description : Option String
  priority_id : Int
deriving DecidableEq

/-- Parameter resolution in `async_create_issue` (`__init__.py` lines
70-74): `call.data.get(key, default)` with the persisted
`default_project_id` / `default_tracker_id` from the entry's config, and
the hard-coded constant `DEFAULT_PRIORITY_ID` for the priority —
`config` is never consulted for the priority. -/
def resolve_issue_params (call : ServiceCallData) (config : InstallationConfig) :
    ResolvedIssueParams :=
  { project_id := call.project_id.getD config.default_project_id
    subject := call.subject
    tracker_id := call.tracker_id.getD config.default_tracker_id
    description := call.description
    priority_id := call.priority_id.getD DEFAULT_PRIORITY_ID }

/-- The exception classes visible to the service handler's `except`
clauses, with `exc` standing for Python's root `Exception`. -/
inductive ExcClass where
  | exc
  | redmineApi
  | redmineAuth
  | redmineConn
deriving DecidableEq

/-- The direct base of each class, from the `class X(Y)` headers of
`api.py` lines 13-22. -/
def parentClass : ExcClass → Option ExcClass
  | .exc => none
  | .redmineApi => some .exc
  | .redmineAuth => some .redmineApi
  | .redmineConn => some .redmineApi

/-- `issubclass`: reflexive-transitive closure of `parentClass` (the
hierarchy has depth two, so two parent steps suffice). -/
def isSubclass (c a : ExcClass) : Bool :=
  decide (c = a) ||
    match parentClass c with
    | none => false
    | some p =>
      decide (p = a) ||
        match parentClass p with
        | none => false
        | some q => decide (q = a)

/-- The class of a raised exception value; an `uncaught` foreign exception
is some `Exception` outside the Redmine taxonomy. -/
def classOf : RaisedError → ExcClass
  | .apiError _ => .redmineApi
  | .authError _ => .redmineAuth
  | .connectionError _ => .redmineConn
  | .uncaught _ => .exc

/-- `str(err)` for a raised exception. -/
def msgOf : RaisedError → String
  | .apiError m => m
  | .authError m => m
  | .connectionError m => m
  | .uncaught m => m

/-- Outcome of the service handler's error handling. -/
inductive ServiceResult where
  | validationFail (translation_key : String) (placeholder : Option String)
  | escaped (e : RaisedError)

/-- The `except` dispatch of `async_create_issue` (`__init__.py` lines
86-96): Python tries clauses in order, firing the first whose class is a
superclass of the raised exception — `except RedmineAuthError` first, then
`except RedmineApiError`, which carries `str(err)` as the placeholder;
anything else propagates. -/
def service_error_dispatch (e : RaisedError) : ServiceResult :=
  if isSubclass (classOf e) .redmineAuth then
    .validationFail "auth_error" none
  else if isSubclass (classOf e) .redmineApi then
    .validationFail "api_error" (some (msgOf e))
  else .escaped e

example : normalizeRedmineUrl "redmine.example.com/".toList =
    "http://redmine.example.com".toList := by decide
example : normalizeRedmineUrl "http://".toList = "http://http:".toList := by decide
example : default_priority_choice
    [⟨2, "Normal", true⟩, ⟨3, "Low", false⟩] = "2" := rfl
example : service_error_dispatch (.connectionError "boom") =
    .validationFail "api_error" (some "boom") := rfl

/-! ## Helper lemmas about trailing-slash stripping -/

theorem head?_dropWhile_not {α : Type} (p : α → Bool) (l : List α) (a : α)
    (h : (l.dropWhile p).head? = some a) : p a = false := by
  induction l with
  | nil => simp [List.dropWhile] at h
  | cons x xs ih =>
    by_cases hx : p x
    · rw [List.dropWhile_cons_of_pos hx] at h
      exact ih h
    · rw [List.dropWhile_cons_of_neg hx] at h
      simp only [List.head?_cons, Option.some.injEq] at h
      subst h
      simpa using hx

theorem dropWhile_suffix_self {α : Type} (p : α → Bool) (l : List α) :
    l.dropWhile p <:+ l := by
  induction l with
  | nil => simp [List.dropWhile]
  | cons x xs ih =>
    by_cases hx : p x
    · rw [List.dropWhile_cons_of_pos hx]
      exact ih.trans (List.suffix_cons x xs)
    · rw [List.dropWhile_cons_of_neg hx]

theorem dropWhile_append_left {α : Type} (p : α → Bool) (x y : List α)
    (h : x.dropWhile p ≠ []) :
    (x ++ y).dropWhile p = x.dropWhile p ++ y := by
  induction x with
  | nil => simp [List.dropWhile] at h
  | cons a xs ih =>
    by_cases ha : p a
    · rw [List.dropWhile_cons_of_pos ha] at h
      rw [List.cons_append, List.dropWhile_cons_of_pos ha,
        List.dropWhile_cons_of_pos ha]
      exact ih h
    · rw [List.cons_append, List.dropWhile_cons_of_neg ha,
        List.dropWhile_cons_of_neg ha, List.cons_append]

/-- The stripped URL never ends with a slash. -/
theorem rstripSlashes_no_trailing (l : List Char) :
    (rstripSlashes l).getLast? ≠ some '/' := by
  unfold rstripSlashes
  rw [List.getLast?_reverse]
  intro h
  have hp := head?_dropWhile_not _ _ _ h
  simp at hp

/-- Stripping trailing slashes only removes characters from the end. -/
theorem rstripSlashes_prefix_self (l : List Char) : rstripSlashes l <+: l := by
  have h := dropWhile_suffix_self (fun c => decide (c = '/')) l.reverse
  have h2 := List.reverse_prefix.mpr h
  rwa [List.reverse_reverse] at h2

/-- Stripping trailing slashes leaves a nonempty remainder whenever some
character is not a slash. -/
theorem rstripSlashes_ne_nil (l : List Char) (c : Char) (hc : c ∈ l)
    (hne : c ≠ '/') : rstripSlashes l ≠ [] := by
  unfold rstripSlashes
  simp only [ne_eq, List.reverse_eq_nil_iff]
  intro h
  rw [List.dropWhile_eq_nil_iff] at h
  have hcl := h c (by simpa using hc)
  simp only [decide_eq_true_eq] at hcl
  exact hne hcl

/-- Trailing-slash stripping of an appended tail whose stripped form is
nonempty leaves the front intact. -/
theorem rstripSlashes_append (a b : List Char) (h : rstripSlashes b ≠ []) :
    rstripSlashes (a ++ b) = a ++ rstripSlashes b := by
  have hb : b.reverse.dropWhile (fun c => decide (c = '/')) ≠ [] := by
    intro hx
    apply h
    unfold rstripSlashes
    rw [hx, List.reverse_nil]
  unfold rstripSlashes
  rw [List.reverse_append, dropWhile_append_left _ _ _ hb,
    List.reverse_append, List.reverse_reverse]

/-- A URL that does not start with a scheme still lacks one after trailing
slashes are stripped. -/
theorem hasScheme_rstrip_false (l : List Char) (h : hasScheme l = false) :
    hasScheme (rstripSlashes l) = false := by
  by_contra hx
  simp only [Bool.not_eq_false] at hx
  unfold hasScheme at hx h
  simp only [Bool.or_eq_true] at hx
  rcases hx with hp | hp
  · rw [List.isPrefixOf_iff_prefix] at hp
    have h2 := hp.trans (rstripSlashes_prefix_self l)
    rw [← List.isPrefixOf_iff_prefix] at h2
    rw [h2] at h
    simp at h
  · rw [List.isPrefixOf_iff_prefix] at hp
    have h2 := hp.trans (rstripSlashes_prefix_self l)
    rw [← List.isPrefixOf_iff_prefix] at h2
    rw [h2] at h
    simp at h

/-- After a successful run, an installation keyed by the run's normalized
URL is present in the registry. -/
theorem setupRun_url_present (entries : List InstallationConfig)
    (r : List Char) (k p : String) (t q : Int) :
    ((setupRun entries r k p t q).1.any
      (fun e => decide (e.redmine_url = normalizeRedmineUrl r))) = true := by
  unfold setupRun
  by_cases hc : (entries.any
      (fun e => decide (e.redmine_url = normalizeRedmineUrl r))) = true
  · rw [if_pos hc]
    exact hc
  · rw [if_neg hc]
    simp

/-! ## Claims -/

/-- C2 (amended): `validate_connection` raises AuthError exactly at status
401; raises ConnectionError for every status ≥ 400 other than 401 and for
every transport-level failure (SSL, other client errors, and any other
exception); returns success for every response with status < 400 — all
2xx and also 3xx — whose decoded body lets the debug lookup
`data.get("user", {}).get("login")` evaluate (a dict whose `"user"`
member, if present, is itself a dict); and raises ConnectionError for a
sub-400 response whose body shape makes that lookup raise (non-dict body,
or a non-dict `"user"` value), via the `except Exception` fallback. -/
theorem c2_validate_connection_taxonomy :
    (∀ body, validate_connection (.response 401 body) =
      .error (.authError "Invalid API key")) ∧
    (∀ status body, status ≠ 401 → 400 ≤ status →
      validate_connection (.response status body) =
        .error (.connectionError ("HTTP error " ++ toString status))) ∧
    (∀ status body, status < 400 → user_login_evaluates body = true →
      validate_connection (.response status body) = .ok true) ∧
    (∀ status body, status < 400 → user_login_evaluates body = false →
      validate_connection (.response status body) =
        .error (.connectionError "Unexpected error: AttributeError")) ∧
    (∀ m, validate_connection (.sslError m) =
      .error (.connectionError ("SSL error: " ++ m))) ∧
    (∀ m, validate_connection (.clientError m) =
      .error (.connectionError ("Connection failed: " ++ m))) ∧
    (∀ m, validate_connection (.otherError m) =
      .error (.connectionError ("Unexpected error: " ++ m))) := by
  refine ⟨fun body => rfl, ?_, ?_, ?_, fun m => rfl, fun m => rfl,
    fun m => rfl⟩
  · intro status body h401 h400
    simp only [validate_connection]
    rw [if_neg h401, if_pos h400]
  · intro status body hlt hbody
    simp only [validate_connection]
    rw [if_neg (by omega : ¬ status = 401),
      if_neg (by omega : ¬ 400 ≤ status), if_pos hbody]
  · intro status body hlt hbody
    simp only [validate_connection]
    rw [if_neg (by omega : ¬ status = 401),
      if_neg (by omega : ¬ 400 ≤ status),
      if_neg (by rw [hbody]; exact Bool.false_ne_true)]

/-- C2 witness: concrete instances of the amended theorem — a 404 maps to
ConnectionError, a 200 whose body is the usual `{"user": {"login": ...}}`
record returns success, and a 200 whose body is a bare JSON string raises
ConnectionError through the debug lookup. -/
theorem c2_validate_connection_taxonomy_witness :
    validate_connection (.response 404 (.obj [])) =
      .error (.connectionError ("HTTP error " ++ toString 404)) ∧
    validate_connection (.response 200
      (.obj [("user", .obj [("login", .str "admin")])])) = .ok true ∧
    validate_connection (.response 200 (.str "anything")) =
      .error (.connectionError "Unexpected error: AttributeError") :=
  ⟨c2_validate_connection_taxonomy.2.1 404 (.obj []) (by decide) (by decide),
   c2_validate_connection_taxonomy.2.2.1 200
     (.obj [("user", .obj [("login", .str "admin")])]) (by decide) rfl,
   c2_validate_connection_taxonomy.2.2.2.1 200 (.str "anything") (by decide)
     rfl⟩

/-- C2 counterexample: two refutations of the claim as stated.  Status 304
is not 2xx, yet `validate_connection` returns success instead of raising
ConnectionError, because `raise_for_status` only raises for statuses
≥ 400.  And a 200 response — a 2xx — with the JSON body `"anything"`
raises ConnectionError rather than succeeding "regardless of the response
body's contents", because the debug lookup
`data.get("user", {}).get("login")` raises `AttributeError` on a non-dict
body inside the `try`. -/
theorem c2_counterexample_status_and_body :
    (validate_connection (.response 304 (.obj [])) = .ok true ∧
      ¬ (200 ≤ 304 ∧ 304 ≤ 299)) ∧
    validate_connection (.response 200 (.str "anything")) =
      .error (.connectionError "Unexpected error: AttributeError") :=
  ⟨⟨rfl, by omega⟩, rfl⟩

/-- C3 (amended): for the failing HTTP outcomes of `create_issue`: a 401
raises AuthError; a 422 whose body carries a well-formed `errors` string
list raises the base ApiError type with message "Validation error: "
followed by the comma-joined server errors in server order; every other
status ≥ 400 raises ApiError carrying that status code; SSL and every
other client-level transport failure raises ConnectionError; an exception
outside the client-error family (e.g. a timeout surfacing as
`asyncio.TimeoutError`) propagates uncaught, since `create_issue` has no
catch-all handler. -/
theorem c3_create_issue_taxonomy :
    (∀ body, create_issue (.response 401 body) =
      .error (.authError "Invalid API key")) ∧
    (∀ body errs, errorsOf body = some errs →
      create_issue (.response 422 body) =
        .error (.apiError
          ("Validation error: " ++ String.intercalate ", " errs))) ∧
    (∀ status body, 400 ≤ status → status ≠ 401 → status ≠ 422 →
      create_issue (.response status body) =
        .error (.apiError ("Failed to create issue: " ++ toString status))) ∧
    (∀ m, create_issue (.sslError m) =
      .error (.connectionError ("Connection failed: " ++ m))) ∧
    (∀ m, create_issue (.clientError m) =
      .error (.connectionError ("Connection failed: " ++ m))) ∧
    (∀ m, create_issue (.otherError m) = .error (.uncaught m)) := by
  refine ⟨fun body => rfl, ?_, ?_, fun m => rfl, fun m => rfl, fun m => rfl⟩
  · intro body errs herr
    simp [create_issue, herr]
  · intro status body h400 h401 h422
    simp only [create_issue]
    rw [if_neg h401, if_neg h422, if_pos h400]

/-- C3 witness: concrete instances of the amended theorem — the 422 body of
the repository's own test (two field errors, comma-joined in server order)
and a plain 500. -/
theorem c3_create_issue_taxonomy_witness :
    create_issue (.response 422 (.obj [("errors",
      .arr [.str "Project is invalid", .str "Subject is too short"])])) =
      .error (.apiError
        "Validation error: Project is invalid, Subject is too short") ∧
    create_issue (.response 500 (.obj [])) =
      .error (.apiError ("Failed to create issue: " ++ toString 500)) :=
  ⟨c3_create_issue_taxonomy.2.1 _
      ["Project is invalid", "Subject is too short"] rfl,
   c3_create_issue_taxonomy.2.2.1 500 (.obj []) (by decide) (by decide)
      (by decide)⟩

/-- C3 counterexample: a 304 response is a non-2xx status that is neither
401 nor 422, yet `create_issue` returns the decoded body as success
instead of raising ApiError, because `raise_for_status` only raises for
statuses ≥ 400. -/
theorem c3_counterexample_status_304 :
    create_issue (.response 304 (.obj [("ok", .bool true)])) =
      .ok (.obj [("ok", .bool true)]) ∧
    ¬ (200 ≤ 304 ∧ 304 ≤ 299) := ⟨rfl, by omega⟩

/-- C4: every request body is the nested record
`{issue: {project_id, subject, tracker_id, priority_id, description?}}`;
when the caller omits `priority_id` the body carries `priority_id = 2`. -/
theorem c4_payload_nested_record :
    (∀ p s t d pr, ∃ inner,
      create_issue_payload p s t d pr = .obj [("issue", .obj inner)]) ∧
    (∀ p s t d,
      issueField (create_issue_payload p s t d none) "priority_id" =
        some (.num 2)) ∧
    (∀ p s t d pr,
      issueField (create_issue_payload p s t d pr) "project_id" =
          some (.str p) ∧
      issueField (create_issue_payload p s t d pr) "subject" =
          some (.str s) ∧
      issueField (create_issue_payload p s t d pr) "tracker_id" =
          some (.num t)) ∧
    (∀ p s t pr dd, dd ≠ "" →
      issueField (create_issue_payload p s t (some dd) pr) "description" =
        some (.str dd)) ∧
    (∀ p s t pr,
      issueField (create_issue_payload p s t none pr) "description" =
        none) := by
  refine ⟨fun p s t d pr => ⟨_, rfl⟩, fun p s t d => rfl,
    fun p s t d pr => ⟨rfl, rfl, rfl⟩, ?_, fun p s t pr => rfl⟩
  intro p s t pr dd hdd
  simp only [create_issue_payload, issueField, jsonGet, jlookup]
  rw [if_neg hdd]
  rfl

/-- C4 witness: concrete instance of the description clause — the
repository test's draft with the priority omitted carries
`priority_id = 2` and the supplied description. -/
theorem c4_payload_nested_record_witness :
    issueField (create_issue_payload "test-project" "Test Issue" 1
      (some "Test description") none) "description" =
        some (.str "Test description") ∧
    issueField (create_issue_payload "test-project" "Test Issue" 1
      (some "Test description") none) "priority_id" = some (.num 2) :=
  ⟨c4_payload_nested_record.2.2.2.1 "test-project" "Test Issue" 1 none
      "Test description" (by decide),
   c4_payload_nested_record.2.1 "test-project" "Test Issue" 1
      (some "Test description")⟩

/-- C9: the client-side default is a truthiness test (`priority_id or 2`),
so an omitted priority AND a supplied priority of 0 both produce
`priority_id = 2` in the request body, and no input can put
`priority_id = 0` on the wire. -/
theorem c9_priority_truthiness :
    (∀ p s t d,
      issueField (create_issue_payload p s t d none) "priority_id" =
        some (.num 2)) ∧
    (∀ p s t d,
      issueField (create_issue_payload p s t d (some 0)) "priority_id" =
        some (.num 2)) ∧
    (∀ p s t d pr,
      issueField (create_issue_payload p s t d pr) "priority_id" ≠
        some (.num 0)) := by
  refine ⟨fun p s t d => rfl, fun p s t d => rfl, ?_⟩
  intro p s t d pr h
  have hv : (some (JValue.num (pyOrInt pr 2)) : Option JValue) =
      some (.num 0) := h
  have h0 : pyOrInt pr 2 = 0 := by
    injection hv with hv2
    injection hv2
  cases pr with
  | none => exact absurd h0 (by decide)
  | some n =>
    by_cases hn : n = 0
    · subst hn
      exact absurd h0 (by decide)
    · have hval : pyOrInt (some n) 2 = n := by simp [pyOrInt, hn]
      rw [hval] at h0
      exact hn h0

/-- C5 (amended): the full normalization pipeline (flow step plus client
constructor) leaves no trailing slash on the base URL for any input;
an input without a scheme gets `http://` prepended exactly once; an input
with a scheme followed by at least one non-slash character is only
slash-stripped, never re-prefixed (the degenerate inputs consisting solely
of a scheme and slashes lose the scheme's slashes to `rstrip("/")` and then
receive a second `http://`); and both request paths appended to the base
URL begin with exactly one slash. -/
theorem c5_url_normalization :
    (∀ l, (clientBaseUrl l).getLast? ≠ some '/') ∧
    (∀ l, hasScheme l = false →
      normalizeRedmineUrl l = "http://".toList ++ rstripSlashes l) ∧
    (∀ rest c, c ∈ rest → c ≠ '/' →
      normalizeRedmineUrl ("http://".toList ++ rest) =
        rstripSlashes ("http://".toList ++ rest) ∧
      normalizeRedmineUrl ("https://".toList ++ rest) =
        rstripSlashes ("https://".toList ++ rest)) ∧
    oneLeadingSlash usersCurrentPath ∧ oneLeadingSlash issuesPath := by
  refine ⟨?_, ?_, ?_, by constructor <;> decide, by constructor <;> decide⟩
  · intro l
    exact rstripSlashes_no_trailing (normalizeRedmineUrl l)
  · intro l h
    have h2 := hasScheme_rstrip_false l h
    simp only [normalizeRedmineUrl, h2, Bool.false_eq_true, if_false]
  · intro rest c hc hne
    have hnil := rstripSlashes_ne_nil rest c hc hne
    constructor
    · rw [rstripSlashes_append _ _ hnil]
      have hsch : hasScheme ("http://".toList ++ rstripSlashes rest) = true := by
        unfold hasScheme
        rw [Bool.or_eq_true]
        left
        rw [List.isPrefixOf_iff_prefix]
        exact List.prefix_append _ _
      simp only [normalizeRedmineUrl, rstripSlashes_append _ _ hnil, hsch,
        if_true]
    · rw [rstripSlashes_append _ _ hnil]
      have hsch : hasScheme ("https://".toList ++ rstripSlashes rest) = true := by
        unfold hasScheme
        rw [Bool.or_eq_true]
        right
        rw [List.isPrefixOf_iff_prefix]
        exact List.prefix_append _ _
      simp only [normalizeRedmineUrl, rstripSlashes_append _ _ hnil, hsch,
        if_true]

/-- C5 witness: concrete instances of the amended theorem — a bare host
with trailing slashes gets one `http://` prefix, and a URL that already
carries a scheme is only slash-stripped. -/
theorem c5_url_normalization_witness :
    hasScheme "redmine.example.com//".toList = false ∧
    normalizeRedmineUrl "redmine.example.com//".toList =
      "http://".toList ++ rstripSlashes "redmine.example.com//".toList ∧
    normalizeRedmineUrl ("http://".toList ++ "host/".toList) =
      rstripSlashes ("http://".toList ++ "host/".toList) :=
  ⟨by decide,
   c5_url_normalization.2.1 _ (by decide),
   (c5_url_normalization.2.2.1 "host/".toList 'h' (by decide) (by decide)).1⟩

/-- C5 counterexample: the entered URL `"http://"` starts with a scheme,
yet normalization prepends another `http://` — `rstrip("/")` runs first and
erases the scheme's slashes, so the scheme check fails and the result is
`"http://http:"` rather than the slash-stripped input. -/
theorem c5_counterexample_scheme_only :
    hasScheme "http://".toList = true ∧
    normalizeRedmineUrl "http://".toList = "http://http:".toList ∧
    normalizeRedmineUrl "http://".toList ≠ rstripSlashes "http://".toList :=
  ⟨by decide, by decide, by decide⟩

/-- C1: each list operation returns exactly the server-provided item
sequence — in server order, no client-side sorting — or fails with
ConnectionError; the setup flow invokes them after a successful
`validate_connection`, carrying the fetched lists into the options step
unchanged, and never reaches them when validation fails. -/
theorem c1_list_operations (po : ListOutcome ProjectItem)
    (ro : ListOutcome PriorityItem) (ko : ListOutcome TrackerItem)
    (v : HttpOutcome) :
    ((∃ xs, po = .items xs ∧ get_projects po = .ok xs) ∨
      (∃ m, po = .connFail m ∧
        get_projects po = .error (.connectionError m))) ∧
    ((∃ xs, ro = .items xs ∧ get_priorities ro = .ok xs) ∨
      (∃ m, ro = .connFail m ∧
        get_priorities ro = .error (.connectionError m))) ∧
    ((∃ xs, ko = .items xs ∧ get_trackers ko = .ok xs) ∨
      (∃ m, ko = .connFail m ∧
        get_trackers ko = .error (.connectionError m))) ∧
    (validate_connection v = .ok true →
      ∀ ps rs ts, async_step_user v (.items ps) (.items rs) (.items ts) =
        .proceedOptions ps rs ts) ∧
    (∀ e, validate_connection v = .error e →
      ∃ errs, async_step_user v po ro ko = .showForm errs) := by
  refine ⟨?_, ?_, ?_, ?_, ?_⟩
  · cases po with
    | items xs => exact Or.inl ⟨xs, rfl, rfl⟩
    | connFail m => exact Or.inr ⟨m, rfl, rfl⟩
  · cases ro with
    | items xs => exact Or.inl ⟨xs, rfl, rfl⟩
    | connFail m => exact Or.inr ⟨m, rfl, rfl⟩
  · cases ko with
    | items xs => exact Or.inl ⟨xs, rfl, rfl⟩
    | connFail m => exact Or.inr ⟨m, rfl, rfl⟩
  · intro hv ps rs ts
    unfold async_step_user
    rw [hv]
    rfl
  · intro e hv
    unfold async_step_user
    rw [hv]
    cases e with
    | apiError m => exact ⟨_, rfl⟩
    | authError m => exact ⟨_, rfl⟩
    | connectionError m => exact ⟨_, rfl⟩
    | uncaught m => exact ⟨_, rfl⟩

/-- C1 witness: with a 200 validation response and three successful
fetches, the flow proceeds to the options step carrying exactly the
server-provided lists; with a 401 it stays on the user form. -/
theorem c1_list_operations_witness :
    async_step_user (.response 200 (.obj []))
      (.items [⟨"proj", "Proj"⟩]) (.items [⟨2, "Normal", true⟩])
      (.items [⟨1, "Bug"⟩]) =
      .proceedOptions [⟨"proj", "Proj"⟩] [⟨2, "Normal", true⟩]
        [⟨1, "Bug"⟩] ∧
    (∃ errs, async_step_user (.response 401 (.obj []))
      (.items []) (.items []) (.items []) = .showForm errs) :=
  ⟨(c1_list_operations (.items [⟨"proj", "Proj"⟩])
      (.items [⟨2, "Normal", true⟩]) (.items [⟨1, "Bug"⟩])
      (.response 200 (.obj []))).2.2.2.1 rfl _ _ _,
   (c1_list_operations (.items []) (.items []) (.items [])
      (.response 401 (.obj []))).2.2.2.2 (.authError "Invalid API key") rfl⟩

/-- C6: in the service-invocation path, an unset `project_id` falls back to
the persisted `default_project_id`, an unset `tracker_id` to the persisted
`default_tracker_id`, and an unset `priority_id` to the hard-coded
`DEFAULT_PRIORITY_ID = 2` — never to the persisted `default_priority_id`,
which the resolution does not read (third clause: the resolved priority is
the same under any two persisted configurations). -/
theorem c6_service_default_resolution :
    (∀ cfg s d, resolve_issue_params ⟨s, none, d, none, none⟩ cfg =
      ⟨cfg.default_project_id, s, cfg.default_tracker_id, d, 2⟩) ∧
    (∀ cfg s d p t pr,
      resolve_issue_params ⟨s, some p, d, some t, some pr⟩ cfg =
        ⟨p, s, t, d, pr⟩) ∧
    (∀ cfg cfg2 call, (resolve_issue_params call cfg).priority_id =
      (resolve_issue_params call cfg2).priority_id) :=
  ⟨fun cfg s d => rfl, fun cfg s d p t pr => rfl, fun cfg cfg2 call => rfl⟩

/-- C7: the options step pre-selects the first tracker in list order; the
priority pre-selection is the first priority whose `is_default` flag is
set, else the first priority, else the hard-coded `"2"` for an empty list;
and the project dropdown has no pre-selection. -/
theorem c7_options_defaults :
    (∀ t ts ps, options_schema_defaults (t :: ts) ps =
      { project := none, tracker := some (toString t.id),
        priority := some (default_priority_choice ps) }) ∧
    (∀ ts ps p, ps.find? (fun q => q.is_default) = some p →
      (options_schema_defaults ts ps).priority = some (toString p.id)) ∧
    (∀ ts p ps2, (p :: ps2).find? (fun q => q.is_default) = none →
      (options_schema_defaults ts (p :: ps2)).priority =
        some (toString p.id)) ∧
    (∀ ts, (options_schema_defaults ts []).priority = some "2") ∧
    (∀ ts ps, (options_schema_defaults ts ps).project = none) := by
  refine ⟨fun t ts ps => rfl, ?_, ?_, fun ts => rfl, fun ts ps => rfl⟩
  · intro ts ps p hfind
    simp [options_schema_defaults, default_priority_choice, hfind]
  · intro ts p ps2 hfind
    simp [options_schema_defaults, default_priority_choice, hfind]

/-- C7 witness: the spec's example — priorities
`[{id:2, is_default:true}, {id:3}]` pre-select `"2"` via the flag, and with
all flags cleared the first entry (still id 2) is pre-selected. -/
theorem c7_options_defaults_witness :
    (options_schema_defaults [⟨1, "Bug"⟩]
      [⟨2, "Normal", true⟩, ⟨3, "Low", false⟩]).priority = some "2" ∧
    (options_schema_defaults [⟨1, "Bug"⟩]
      [⟨2, "Normal", false⟩, ⟨3, "Low", false⟩]).priority = some "2" :=
  ⟨c7_options_defaults.2.1 [⟨1, "Bug"⟩] _ ⟨2, "Normal", true⟩ rfl,
   c7_options_defaults.2.2.1 [⟨1, "Bug"⟩] ⟨2, "Normal", false⟩
      [⟨3, "Low", false⟩] rfl⟩

/-- C8: when two setup runs' entered URLs normalize to the same base URL,
the second run aborts at the duplicate check without touching the
registry, so a registry holding at most one installation per normalized
URL keeps that property. -/
theorem c8_duplicate_url_abort (entries : List InstallationConfig)
    (r1 r2 : List Char) (k1 p1 : String) (t1 q1 : Int) (k2 p2 : String)
    (t2 q2 : Int) (hsame : normalizeRedmineUrl r1 = normalizeRedmineUrl r2) :
    (setupRun (setupRun entries r1 k1 p1 t1 q1).1 r2 k2 p2 t2 q2).2 = true ∧
    (setupRun (setupRun entries r1 k1 p1 t1 q1).1 r2 k2 p2 t2 q2).1 =
      (setupRun entries r1 k1 p1 t1 q1).1 ∧
    (entries.countP
        (fun e => decide (e.redmine_url = normalizeRedmineUrl r1)) ≤ 1 →
      (setupRun entries r1 k1 p1 t1 q1).1.countP
        (fun e => decide (e.redmine_url = normalizeRedmineUrl r1)) ≤ 1) := by
  have hmem := setupRun_url_present entries r1 k1 p1 t1 q1
  rw [hsame] at hmem
  refine ⟨?_, ?_, ?_⟩
  · conv_lhs => rw [setupRun]
    rw [if_pos hmem]
  · conv_lhs => rw [setupRun]
    rw [if_pos hmem]
  · intro hcount
    by_cases hc : (entries.any
        (fun e => decide (e.redmine_url = normalizeRedmineUrl r1))) = true
    · have hrun : (setupRun entries r1 k1 p1 t1 q1).1 = entries := by
        simp only [setupRun]
        rw [if_pos hc]
      rw [hrun]
      exact hcount
    · have hrun : (setupRun entries r1 k1 p1 t1 q1).1 =
          { redmine_url := normalizeRedmineUrl r1, api_key := k1,
            default_project_id := p1, default_tracker_id := t1,
            default_priority_id := q1 } :: entries := by
        simp only [setupRun]
        rw [if_neg hc]
      rw [hrun]
      have hzero : entries.countP
          (fun e => decide (e.redmine_url = normalizeRedmineUrl r1)) = 0 := by
        rw [List.countP_eq_zero]
        intro a ha hmatch
        exact hc (List.any_eq_true.mpr ⟨a, ha, hmatch⟩)
      have hcons : List.countP
          (fun e => decide (e.redmine_url = normalizeRedmineUrl r1))
          ({ redmine_url := normalizeRedmineUrl r1, api_key := k1,
             default_project_id := p1, default_tracker_id := t1,
             default_priority_id := q1 } :: entries) =
          List.countP
            (fun e => decide (e.redmine_url = normalizeRedmineUrl r1))
            entries + 1 :=
        List.countP_cons_of_pos _ _ (by simp)
      rw [hcons, hzero]

/-- C8 witness: two runs entering `"redmine.example.com/"` and
`"http://redmine.example.com"` — distinct raw strings with the same
normalized base URL — where the second aborts. -/
theorem c8_duplicate_url_abort_witness :
    (setupRun (setupRun [] "redmine.example.com/".toList "key" "proj" 1 2).1
      "http://redmine.example.com".toList "key2" "proj2" 3 4).2 = true :=
  (c8_duplicate_url_abort [] "redmine.example.com/".toList
    "http://redmine.example.com".toList "key" "proj" 1 2 "key2" "proj2" 3 4
    (by decide)).1

/-- C10: `RedmineAuthError` and `RedmineConnectionError` are subclasses of
`RedmineApiError`, so an `except RedmineApiError` clause catches all three;
the service handler's `except RedmineAuthError` comes first (an AuthError
lands in the auth branch even though the ApiError clause would also match),
and its ApiError branch is what turns a ConnectionError into the
user-facing validation failure carrying the error text. -/
theorem c10_error_hierarchy :
    isSubclass .redmineAuth .redmineApi = true ∧
    isSubclass .redmineConn .redmineApi = true ∧
    (∀ m, service_error_dispatch (.authError m) =
      .validationFail "auth_error" none) ∧
    (∀ m, service_error_dispatch (.apiError m) =
      .validationFail "api_error" (some m)) ∧
    (∀ m, service_error_dispatch (.connectionError m) =
      .validationFail "api_error" (some m)) :=
  ⟨rfl, rfl, fun m => rfl, fun m => rfl, fun m => rfl⟩
